import Mathlib

/-!
Verification of the edit-to-filter-graph compiler and transcode orchestrator of
the FastAPI video-editing service (`src/services/video_processor.py`,
`src/main.py`, `src/models/video_process.py`).

Modelling conventions:
* Python floats are modelled as exact rationals (`ℚ`); the claims under study
  concern the algebraic structure of the computations, not IEEE-754 rounding.
* Python `int` is `ℤ`, Python strings are Lean `String`.
* `dict.get` on the logo-file mapping is modelled as a function
  `String → Option String`; `os.path.exists` as an abstract `String → Bool`.
* Numeric-to-string interpolation inside f-strings is modelled by `toString`
  on `ℚ`/`ℤ`/`ℕ`; the digit syntax differs from CPython `repr` (e.g. `"1/2"`
  vs `"0.5"`), but no claim depends on the rendered digits of a number.
* The incremental `filter_complex += ";..."` string building of
  `build_overlay_filter` is modelled by a list of stage records
  (`FilterSeg`), one per appended `f"..."` fragment, rendered and joined
  with `";"` exactly as the source interpolates them.
-/

namespace VideoProc

/-- Pydantic model `TextOverlay` (src/models/video_process.py:10-25).
Field defaults follow the pydantic declarations: `x=y=50.0`,
`fontsize=24`, `fontcolor="white"`, every other optional field `None`.
`end` is a Lean keyword, so the `end` field is named `end_`. -/
structure TextOverlay where
  text : String
  x : ℚ := 50
  y : ℚ := 50
  start : Option ℚ := none
  end_ : Option ℚ := none
  startTime : Option ℚ := none
  endTime : Option ℚ := none
  fontsize : Option ℤ := some 24
  fontSize : Option ℤ := none
  fontcolor : Option String := some "white"
  color : Option String := none

/-- Pydantic model `LogoOverlay` (src/models/video_process.py:28-41). -/
structure LogoOverlay where
  filename : String
  x : ℚ := 50
  y : ℚ := 50
  width : Option ℤ := some 100
  height : Option ℤ := some 100
  start : Option ℚ := none
  end_ : Option ℚ := none
  startTime : Option ℚ := none
  endTime : Option ℚ := none

/-- Python truthiness of an `Optional[float]`: `None` and `0.0` are falsy. -/
def truthyQ : Option ℚ → Bool
  | none => false
  | some v => v != 0

/-- Python truthiness of an `Optional[int]`: `None` and `0` are falsy. -/
def truthyZ : Option ℤ → Bool
  | none => false
  | some v => v != 0

/-- Python truthiness of an `Optional[str]`: `None` and `""` are falsy. -/
def truthyS : Option String → Bool
  | none => false
  | some v => v != ""

/-- `(overlay.start or overlay.startTime or 0)`
(src/services/video_processor.py:153 and :180): Python `or` returns the
first truthy operand, so a present-but-zero `start` falls through. -/
def rawStartVal (start startTime : Option ℚ) : ℚ :=
  if truthyQ start then start.getD 0
  else if truthyQ startTime then startTime.getD 0
  else 0

/-- `(overlay.end or overlay.endTime)`
(src/services/video_processor.py:154 and :181): the value is the second
operand whenever the first is falsy (`None` or `0.0`). -/
def rawEndVal (end_ endTime : Option ℚ) : Option ℚ :=
  if truthyQ end_ then end_ else endTime

/-- `start_time = max(0, (... or ... or 0) - trim_start)`
(src/services/video_processor.py:153 and :180). -/
def effectiveStart (trimStart : ℚ) (start startTime : Option ℚ) : ℚ :=
  max 0 (rawStartVal start startTime - trimStart)

/-- `end_time = (... or ...); if end_time is not None: end_time = max(0, end_time - trim_start)`
(src/services/video_processor.py:154-156 and :181-183). -/
def effectiveEnd (trimStart : ℚ) (end_ endTime : Option ℚ) : Option ℚ :=
  match rawEndVal end_ endTime with
  | none => none
  | some v => some (max 0 (v - trimStart))

/-- `text.fontSize or text.fontsize or 24` (src/services/video_processor.py:190). -/
def fontSizeVal (fontSize fontsize : Option ℤ) : ℤ :=
  if truthyZ fontSize then fontSize.getD 0
  else if truthyZ fontsize then fontsize.getD 0
  else 24

/-- `text.color or text.fontcolor or 'white'` (src/services/video_processor.py:194). -/
def colorVal (color fontcolor : Option String) : String :=
  if truthyS color then color.getD ""
  else if truthyS fontcolor then fontcolor.getD ""
  else "white"

/-- CPython `round()` on the exact value: round half to even (banker's
rounding), as used by `round(...)` in src/services/video_processor.py:164-165
and :191. -/
def pyRound (q : ℚ) : ℤ :=
  if Int.fract q < 1/2 then ⌊q⌋
  else if 1/2 < Int.fract q then ⌊q⌋ + 1
  else if ⌊q⌋ % 2 = 0 then ⌊q⌋ else ⌊q⌋ + 1

/-- `scale_factor = video_width / preview_width` with `preview_width = 640`
(src/services/video_processor.py:162-163 and :188-189). -/
def scaleFactor (videoWidth : ℤ) : ℚ :=
  (videoWidth : ℚ) / 640

/-- `scaled_width = round((logo.width or 100) * scale_factor)`
(src/services/video_processor.py:164). -/
def scaledLogoWidth (l : LogoOverlay) (videoWidth : ℤ) : ℤ :=
  pyRound ((if truthyZ l.width then (l.width.getD 0 : ℚ) else 100) * scaleFactor videoWidth)

/-- `scaled_height = round((logo.height or 100) * scale_factor)`
(src/services/video_processor.py:165). -/
def scaledLogoHeight (l : LogoOverlay) (videoWidth : ℤ) : ℤ :=
  pyRound ((if truthyZ l.height then (l.height.getD 0 : ℚ) else 100) * scaleFactor videoWidth)

/-- `base_fontsize = text.fontSize or text.fontsize or 24` followed by
`scaled_fontsize = round(base_fontsize * scale_factor)`
(src/services/video_processor.py:190-191). -/
def scaledFontsize (t : TextOverlay) (videoWidth : ℤ) : ℤ :=
  pyRound ((fontSizeVal t.fontSize t.fontsize : ℚ) * scaleFactor videoWidth)

/-- `escaped_text = text.text.replace("'", "\\'")`
(src/services/video_processor.py:197): CPython `str.replace` with the
one-character pattern `'` replaces each occurrence by `\'` and leaves every
other character unchanged. -/
def escapeText (s : String) : String :=
  String.mk ((s.data.map fun c => if c = '\'' then ['\\', '\''] else [c]).flatten)

/-- Rendering of a Python number inside an f-string (digit syntax abstracted,
see the module docstring). -/
def qstr (q : ℚ) : String :=
  toString q

/-- `enable='between(t,{start_time},{end_time if end_time is not None else 'INF'})'`
(src/services/video_processor.py:158 and :185). -/
def enableClause (startT : ℚ) (endT : Option ℚ) : String :=
  "enable='between(t," ++ qstr startT ++ "," ++
    (match endT with
     | some e => qstr e
     | none => "INF") ++ ")'"

/-- The enable clause built for a logo overlay (src/services/video_processor.py:152-158). -/
def logoEnable (trimStart : ℚ) (l : LogoOverlay) : String :=
  enableClause (effectiveStart trimStart l.start l.startTime)
    (effectiveEnd trimStart l.end_ l.endTime)

/-- The enable clause built for a text overlay (src/services/video_processor.py:179-185). -/
def textEnable (trimStart : ℚ) (t : TextOverlay) : String :=
  enableClause (effectiveStart trimStart t.start t.startTime)
    (effectiveEnd trimStart t.end_ t.endTime)

/-- One fragment of the incrementally built `filter_complex` string of
`build_overlay_filter` (src/services/video_processor.py:141-205); each
constructor records the data interpolated into one appended `f"..."`
fragment. -/
inductive FilterSeg where
  | eq (brightness contrast saturation : ℚ)
  | scale (inputIdx : ℕ) (w h : ℤ) (outLabel : String)
  | overlayComp (chainLabel scaledLabel : String) (x y : ℚ) (enable : String) (outLabel : String)
  | drawtext (chainLabel payload : String) (x y : ℚ) (fontsize : ℤ) (fontcolor : String) (enable : String) (outLabel : String)
  | fmt (chainLabel outLabel : String)
deriving DecidableEq

/-- The exact f-string text of each fragment
(src/services/video_processor.py:141, :170, :173, :199-201, :205). -/
def renderSeg : FilterSeg → String
  | .eq b c s =>
      "[0:v]eq=brightness=" ++ qstr b ++ ":contrast=" ++ qstr c ++
        ":saturation=" ++ qstr s ++ "[base]"
  | .scale i w h lbl =>
      "[" ++ toString i ++ ":v]scale=" ++ toString w ++ ":" ++ toString h ++
        "[" ++ lbl ++ "]"
  | .overlayComp chain lbl x y en out =>
      "[" ++ chain ++ "][" ++ lbl ++ "]overlay=(main_w*" ++ qstr x ++
        "/100):(main_h*" ++ qstr y ++ "/100):" ++ en ++ "[" ++ out ++ "]"
  | .drawtext chain payload x y fs color en out =>
      "[" ++ chain ++ "]drawtext=text='" ++ payload ++ "':x=(w*" ++ qstr x ++
        "/100):y=(h*" ++ qstr y ++ "/100):fontsize=" ++ toString fs ++
        ":fontcolor=" ++ color ++ ":" ++ en ++ "[" ++ out ++ "]"
  | .fmt chain out =>
      "[" ++ chain ++ "]format=yuv420p[" ++ out ++ "]"

/-- `filter_complex` starts with the first fragment and every later fragment
is appended behind a `";"` (src/services/video_processor.py:141, :170-173,
:201, :205). -/
def renderFilter (segs : List FilterSeg) : String :=
  String.intercalate ";" (segs.map renderSeg)

/-- `logo_file_path = logo_files.get(logo.filename)` followed by the guard
`logo_file_path and os.path.exists(logo_file_path)`
(src/services/video_processor.py:134-135 and :148-150): the overlay is
resolved only when the mapping has a truthy (non-empty) entry whose path
exists. -/
def resolvedPath (logoFiles : String → Option String) (pathExists : String → Bool)
    (l : LogoOverlay) : Option String :=
  match logoFiles l.filename with
  | none => none
  | some p => if p ≠ "" && pathExists p then some p else none

/-- The `-i` auxiliary-input list built by the first loop of
`build_overlay_filter` (src/services/video_processor.py:129-136). -/
def logoInputs (logoFiles : String → Option String) (pathExists : String → Bool) :
    List LogoOverlay → List String
  | [] => []
  | l :: rest =>
      (match resolvedPath logoFiles pathExists l with
       | some p => ["-i", p]
       | none => []) ++ logoInputs logoFiles pathExists rest

/-- The logo-overlay loop of `build_overlay_filter`
(src/services/video_processor.py:147-175): `declIdx` is the `enumerate`
index, `logoIdx` the running `logo_index` (input stream number, starts at 1),
`cur` the running `current_label`.  Unresolved overlays are skipped
(`continue`); a resolved one appends a scale fragment and an
overlay-composite fragment and advances the chain label. -/
def logoSegs (trimStart : ℚ) (videoWidth : ℤ) (logoFiles : String → Option String)
    (pathExists : String → Bool) :
    List LogoOverlay → ℕ → ℕ → String → List FilterSeg
  | [], _, _, _ => []
  | l :: rest, declIdx, logoIdx, cur =>
      match resolvedPath logoFiles pathExists l with
      | none => logoSegs trimStart videoWidth logoFiles pathExists rest (declIdx + 1) logoIdx cur
      | some _ =>
          FilterSeg.scale logoIdx (scaledLogoWidth l videoWidth) (scaledLogoHeight l videoWidth)
              ("logo" ++ toString declIdx) ::
            FilterSeg.overlayComp cur ("logo" ++ toString declIdx) l.x l.y
              (logoEnable trimStart l) ("out" ++ toString declIdx) ::
            logoSegs trimStart videoWidth logoFiles pathExists rest (declIdx + 1) (logoIdx + 1)
              ("out" ++ toString declIdx)

/-- The `current_label` left behind by the logo-overlay loop
(src/services/video_processor.py:143, :174). -/
def logoChainLabel (logoFiles : String → Option String) (pathExists : String → Bool) :
    List LogoOverlay → ℕ → String → String
  | [], _, cur => cur
  | l :: rest, declIdx, cur =>
      match resolvedPath logoFiles pathExists l with
      | none => logoChainLabel logoFiles pathExists rest (declIdx + 1) cur
      | some _ => logoChainLabel logoFiles pathExists rest (declIdx + 1) ("out" ++ toString declIdx)

/-- The text-overlay loop of `build_overlay_filter`
(src/services/video_processor.py:178-202): every text overlay appends one
drawtext fragment and advances the chain label to `outtext{idx}`. -/
def textSegs (trimStart : ℚ) (videoWidth : ℤ) :
    List TextOverlay → ℕ → String → List FilterSeg
  | [], _, _ => []
  | t :: rest, declIdx, cur =>
      FilterSeg.drawtext cur (escapeText t.text) t.x t.y (scaledFontsize t videoWidth)
          (colorVal t.color t.fontcolor) (textEnable trimStart t)
          ("outtext" ++ toString declIdx) ::
        textSegs trimStart videoWidth rest (declIdx + 1) ("outtext" ++ toString declIdx)

/-- The `current_label` left behind by the text-overlay loop
(src/services/video_processor.py:202). -/
def textChainLabel : List TextOverlay → ℕ → String → String
  | [], _, cur => cur
  | _ :: rest, declIdx, _ => textChainLabel rest (declIdx + 1) ("outtext" ++ toString declIdx)

/-- The full fragment list of `build_overlay_filter`
(src/services/video_processor.py:141-205): the eq adjustment fragment, the
logo fragments, the text fragments and the final format fragment. -/
def buildSegs (trimStart : ℚ) (textOverlays : List TextOverlay)
    (logoOverlays : List LogoOverlay) (logoFiles : String → Option String)
    (pathExists : String → Bool) (videoWidth : ℤ)
    (brightness contrast saturation : ℚ) : List FilterSeg :=
  FilterSeg.eq brightness contrast saturation ::
    (logoSegs trimStart videoWidth logoFiles pathExists logoOverlays 0 1 "base" ++
     textSegs trimStart videoWidth textOverlays 0
       (logoChainLabel logoFiles pathExists logoOverlays 0 "base") ++
     [FilterSeg.fmt
       (textChainLabel textOverlays 0 (logoChainLabel logoFiles pathExists logoOverlays 0 "base"))
       "outv"])

/-- `build_overlay_filter` (src/services/video_processor.py:101-207): returns
the `filter_complex` string and the additional `-i` input list.
`video_height` is accepted and unused, as in the source; `pathExists` models
`os.path.exists`. -/
def build_overlay_filter (trimStart : ℚ) (textOverlays : List TextOverlay)
    (logoOverlays : List LogoOverlay) (logoFiles : String → Option String)
    (pathExists : String → Bool) (videoWidth videoHeight : ℤ)
    (brightness contrast saturation : ℚ) : String × List String :=
  (renderFilter (buildSegs trimStart textOverlays logoOverlays logoFiles pathExists videoWidth
      brightness contrast saturation),
   logoInputs logoFiles pathExists logoOverlays)

/-- Predicate: the fragment is a logo scale stage. -/
def isScaleSeg : FilterSeg → Bool
  | .scale .. => true
  | _ => false

/-- Predicate: the fragment is an overlay-composite stage. -/
def isOverlaySeg : FilterSeg → Bool
  | .overlayComp .. => true
  | _ => false

/-- Predicate: the fragment is the final format-conversion stage. -/
def isFmtSeg : FilterSeg → Bool
  | .fmt .. => true
  | _ => false

/-- The auxiliary-input stream index consumed by a scale fragment. -/
def scaleInputIdx : FilterSeg → Option ℕ
  | .scale i .. => some i
  | _ => none

/-- The percentage position data (x, y) carried by an overlay-composite or
drawtext fragment. -/
def posData : FilterSeg → Option (ℚ × ℚ)
  | .overlayComp _ _ x y _ _ => some (x, y)
  | .drawtext _ _ x y _ _ _ _ => some (x, y)
  | _ => none

/-- CPython `str.split(sep)` for a one-character separator, on the character
list of the string (used for `r_frame_rate.split('/')`,
src/services/video_processor.py:76). -/
def splitOnChar (sep : Char) : List Char → List (List Char)
  | [] => [[]]
  | c :: rest =>
      let r := splitOnChar sep rest
      if c = sep then [] :: r
      else
        match r with
        | [] => [[c]]
        | h :: t => (c :: h) :: t

/-- Value of a list of decimal digit characters. -/
def digitsVal (l : List Char) : ℕ :=
  l.foldl (fun a c => 10 * a + (c.toNat - 48)) 0

/-- Optional leading sign of a Python numeric literal. -/
def parseSign : List Char → ℤ × List Char
  | '+' :: r => (1, r)
  | '-' :: r => (-1, r)
  | r => (1, r)

/-- Exponent digits after the `e`/`E` of a Python float literal; `none` when
absent/malformed or when junk follows. -/
def parseExpAfterE (r : List Char) : Option ℤ :=
  let sr := parseSign r
  let ds := sr.2.takeWhile Char.isDigit
  let rest := sr.2.dropWhile Char.isDigit
  if ds = [] ∨ rest ≠ [] then none else some (sr.1 * (digitsVal ds : ℤ))

/-- Optional exponent part of a Python float literal (everything after the
mantissa); `some 0` when absent. -/
def parseExp : List Char → Option ℤ
  | [] => some 0
  | 'e' :: r => parseExpAfterE r
  | 'E' :: r => parseExpAfterE r
  | _ => none

/-- Lexical part of CPython `float(str)` on finite decimal literals:
optional surrounding whitespace, optional sign, digits with an optional
single point, optional exponent.  Returns
(sign, integer-part value, fraction-part value, fraction length, exponent),
or `none` on any other input.  (`inf`/`nan` and digit-group underscores are
not modelled; they cannot occur in the rational frame-rate strings this
parser receives.) -/
def pyFloatParts (cs : List Char) : Option (ℤ × ℕ × ℕ × ℕ × ℤ) :=
  let cs0 := cs.dropWhile Char.isWhitespace
  let cs1 := (cs0.reverse.dropWhile Char.isWhitespace).reverse
  let sc := parseSign cs1
  let ip := sc.2.takeWhile Char.isDigit
  let cs3 := sc.2.dropWhile Char.isDigit
  let fr := match cs3 with
    | '.' :: r => (r.takeWhile Char.isDigit, r.dropWhile Char.isDigit)
    | r => ([], r)
  if ip = [] ∧ fr.1 = [] then none
  else
    match parseExp fr.2 with
    | none => none
    | some e => some (sc.1, digitsVal ip, digitsVal fr.1, fr.1.length, e)

/-- CPython `float(str)` on finite decimal literals: the rational value of
the lexed parts; `none` models the `ValueError` raised on malformed input. -/
def parsePyFloat (cs : List Char) : Option ℚ :=
  match pyFloatParts cs with
  | none => none
  | some (sgn, ip, fp, fpLen, e) =>
      some ((sgn : ℚ) * ((ip : ℚ) + (fp : ℚ) / (10 : ℚ) ^ fpLen) * (10 : ℚ) ^ e)

/-- The fps derivation of `get_video_info`
(src/services/video_processor.py:75-77):
`fps_parts = video_stream.get('r_frame_rate', '30/1').split('/')` and
`fps = float(fps_parts[0]) / float(fps_parts[1]) if len(fps_parts) == 2 else 30.0`.
A `ValueError` from `float()` or a `ZeroDivisionError` from the division is
not caught by the surrounding `try` (which handles only `SubprocessError`
and `JSONDecodeError`), so those propagate as errors. -/
def computeFps (rFrameRate : Option String) : Except String ℚ :=
  let s := rFrameRate.getD "30/1"
  match splitOnChar '/' s.data with
  | [n, d] =>
      match parsePyFloat n, parsePyFloat d with
      | some nv, some dv =>
          if dv = 0 then Except.error "ZeroDivisionError: float division by zero"
          else Except.ok (nv / dv)
      | _, _ => Except.error "ValueError: could not convert string to float"
  | _ => Except.ok 30

/-- Message of the `VideoProcessingError` raised on a non-zero FFmpeg exit
(src/services/video_processor.py:309). -/
def transcodeFailureMsg (returncode : ℤ) (stderrText : String) : String :=
  "FFmpeg failed with exit code " ++ toString returncode ++ ": " ++ stderrText

/-- Message of the `VideoProcessingError` raised when FFmpeg exits zero but
the output file is missing (src/services/video_processor.py:312). -/
def outputMissingMsg : String :=
  "FFmpeg completed but output file was not created"

/-- Outcome classification of the transcode run in `process_video`
(src/services/video_processor.py:303-315): non-zero exit raises the
failure message carrying the exit code and the full decoded stderr; a zero
exit with a missing output file raises the distinct output-missing message;
otherwise the function returns `True`. -/
def classifyTranscode (returncode : ℤ) (stderrText : String) (outputExistsAfter : Bool) :
    Except String Bool :=
  if returncode ≠ 0 then Except.error (transcodeFailureMsg returncode stderrText)
  else if outputExistsAfter = false then Except.error outputMissingMsg
  else Except.ok true

/-- CPython `pathlib.PurePath(p).stem`: the final path component without its
last suffix; a suffix exists only when the last `.` of the final component
is neither its first nor its last character. -/
def pyStem (p : String) : String :=
  let nameRev := p.data.reverse.takeWhile fun c => c ≠ '/'
  let sufRev := nameRev.takeWhile fun c => c ≠ '.'
  match nameRev.dropWhile fun c => c ≠ '.' with
  | [] => String.mk nameRev.reverse
  | _ :: stemRev =>
      if stemRev = [] ∨ sufRev = [] then String.mk nameRev.reverse
      else String.mk stemRev.reverse

/-- `temp_video_path = os.path.join(UPLOAD_DIR, f"proc_{video.filename}")`
with `UPLOAD_DIR = "uploads"` (src/main.py:53, :227): the staged input path
is a function of the uploaded file name alone. -/
def stagedInputPath (filename : String) : String :=
  "uploads/proc_" ++ filename

/-- The staged input path used for a request, seen as a function of the
request's (filename, millisecond-timestamp) pair: src/main.py:227 interpolates
only the file name, ignoring the per-request timestamp `tsMillis` that
src/main.py:240 puts into the output name. -/
def requestStagedPath (filename : String) (tsMillis : ℤ) : String :=
  stagedInputPath filename

/-- `output_filename = f"processed_{Path(video.filename).stem}_{int(loop.time() * 1000)}.mp4"`
(src/main.py:240); `tsMillis` is the millisecond timestamp. -/
def outputFilename (filename : String) (tsMillis : ℤ) : String :=
  "processed_" ++ pyStem filename ++ "_" ++ toString tsMillis ++ ".mp4"

/-- `output_path = os.path.join(OUTPUT_DIR, output_filename)` with
`OUTPUT_DIR = "outputs"` (src/main.py:54, :241). -/
def outputPath (filename : String) (tsMillis : ℤ) : String :=
  "outputs/" ++ outputFilename filename tsMillis

/-- `temp_files_to_cleanup = [temp_video_path]` (src/main.py:228): the only
file the endpoint ever registers for cleanup is the staged input. -/
def tempFilesToCleanup (filename : String) : List String :=
  [stagedInputPath filename]

/-- `logo_files: Dict[str, str] = {}` (src/main.py:223-224): the primary
`/video/process` endpoint builds an empty logo-file map and passes it
unchanged to `process_video` (src/main.py:257). -/
def emptyLogoFiles : String → Option String :=
  fun _ => none

/-- Observable outcome of one `/video/process` request: the HTTP-level
result (error detail or returned file path) and the files deleted by the
`finally` cleanup. -/
structure EndpointResult where
  response : Except String String
  deleted : List String

/-- The response/cleanup behaviour of `process_video_endpoint`
(src/main.py:230-285) as a function of the transcode outcome: on success the
output path is returned (`FileResponse`); a `VideoProcessingError` becomes an
HTTP 500 whose detail is the error message; in both cases the `finally` block
deletes exactly `temp_files_to_cleanup` unless the debug-retain flag is set. -/
def processVideoEndpointOutcome (filename : String) (tsMillis : ℤ)
    (transcodeResult : Except String Bool) (debugKeep : Bool) : EndpointResult :=
  { response :=
      match transcodeResult with
      | Except.ok _ => Except.ok (outputPath filename tsMillis)
      | Except.error e => Except.error e
    deleted := if debugKeep then [] else tempFilesToCleanup filename }

/-- C1 counterexample: the claim says alias resolution picks the first
non-null value "even when the winning value is 0", so for
`start = 0, startTime = 7` the canonical start would be `0`; the code's
Python-`or` resolution yields `7` instead. -/
theorem c1_alias_first_nonnull_counterexample :
    rawStartVal (some 0) (some 7) = 7 ∧ ¬ rawStartVal (some 0) (some 7) = 0 := by
  constructor
  · simp [rawStartVal, truthyQ]
  · simp [rawStartVal, truthyQ]

/-- C1 (amended): alias resolution picks the first *truthy* value of each
pair — non-null and nonzero (non-empty for colors).  Canonical start is
`start` if non-null and nonzero, else `startTime` if non-null and nonzero,
else 0; a present-but-zero primary falls through exactly like a null one.
Canonical end is `end` if non-null and nonzero, else `endTime` verbatim.
Canonical font size is `fontSize` if non-null and nonzero, else `fontsize`
if non-null and nonzero, else 24.  Canonical color is `color` if non-null
and non-empty, else `fontcolor` if non-null and non-empty, else `"white"`. -/
theorem c1_alias_resolution_amended :
    (∀ (v : ℚ) (sT : Option ℚ), v ≠ 0 → rawStartVal (some v) sT = v) ∧
    (∀ sT : Option ℚ, rawStartVal (some 0) sT = rawStartVal none sT) ∧
    (∀ w : ℚ, w ≠ 0 → rawStartVal none (some w) = w) ∧
    rawStartVal none (some 0) = 0 ∧ rawStartVal none none = 0 ∧
    (∀ (v : ℚ) (eT : Option ℚ), v ≠ 0 → rawEndVal (some v) eT = some v) ∧
    (∀ eT : Option ℚ, rawEndVal (some 0) eT = eT ∧ rawEndVal none eT = eT) ∧
    (∀ (v : ℤ) (fs : Option ℤ), v ≠ 0 → fontSizeVal (some v) fs = v) ∧
    (∀ fs : Option ℤ, fontSizeVal (some 0) fs = fontSizeVal none fs) ∧
    (∀ w : ℤ, w ≠ 0 → fontSizeVal none (some w) = w) ∧
    fontSizeVal none (some 0) = 24 ∧ fontSizeVal none none = 24 ∧
    (∀ (c : String) (fc : Option String), c ≠ "" → colorVal (some c) fc = c) ∧
    (∀ fc : Option String, colorVal (some "") fc = colorVal none fc) ∧
    (∀ c : String, c ≠ "" → colorVal none (some c) = c) ∧
    colorVal none (some "") = "white" ∧ colorVal none none = "white" := by
  refine ⟨?_, ?_, ?_, ?_, ?_, ?_, ?_, ?_, ?_, ?_, ?_, ?_, ?_, ?_, ?_, ?_, ?_⟩ <;>
    intros <;> simp_all [rawStartVal, rawEndVal, fontSizeVal, colorVal, truthyQ, truthyZ, truthyS]

/-- C1 amended witness at concrete inputs. -/
theorem c1_alias_resolution_amended_witness :
    rawStartVal (some 3) (some 7) = 3 ∧ rawStartVal none (some 7) = 7 ∧
    fontSizeVal (some 30) (some 24) = 30 ∧ colorVal (some "red") (some "white") = "red" := by
  obtain ⟨h1, h2, h3, h4, h5, h6, h7, h8, h9, h10, h11, h12, h13, h14, h15, h16, h17⟩ :=
    c1_alias_resolution_amended
  exact ⟨h1 3 (some 7) (by norm_num), h3 7 (by norm_num),
    h8 30 (some 24) (by decide), h13 "red" (some "white") (by decide)⟩

/-- C2: with the alias-resolved raw start and raw end, the effective window
used in enable predicates is `max(0, rawStart - trimStart)` and (when the
raw end is non-null) `max(0, rawEnd - trimStart)`, unbounded otherwise; in
particular `trimStart = 5`, `start = 3`, `end = 8` yields the window
`[0, 3]`, and both overlay kinds build their enable clause from exactly
these values. -/
theorem c2_time_window_rebase (trimStart : ℚ) (htrim : 0 ≤ trimStart) :
    (∀ s sT : Option ℚ, effectiveStart trimStart s sT = max 0 (rawStartVal s sT - trimStart)) ∧
    (∀ e eT : Option ℚ, rawEndVal e eT = none → effectiveEnd trimStart e eT = none) ∧
    (∀ (e eT : Option ℚ) (v : ℚ), rawEndVal e eT = some v →
        effectiveEnd trimStart e eT = some (max 0 (v - trimStart))) ∧
    effectiveStart 5 (some 3) none = 0 ∧ effectiveEnd 5 (some 8) none = some 3 ∧
    (∀ t : TextOverlay, textEnable trimStart t =
        enableClause (effectiveStart trimStart t.start t.startTime)
          (effectiveEnd trimStart t.end_ t.endTime)) ∧
    (∀ l : LogoOverlay, logoEnable trimStart l =
        enableClause (effectiveStart trimStart l.start l.startTime)
          (effectiveEnd trimStart l.end_ l.endTime)) := by
  refine ⟨fun s sT => rfl, ?_, ?_, ?_, ?_, fun t => rfl, fun l => rfl⟩
  · intro e eT h
    simp [effectiveEnd, h]
  · intro e eT v h
    simp [effectiveEnd, h]
  · show max 0 (rawStartVal (some 3) none - 5) = 0
    have h3 : rawStartVal (some 3) none = 3 := by simp [rawStartVal, truthyQ]
    rw [h3]
    exact max_eq_left (by norm_num)
  · show effectiveEnd 5 (some 8) none = some 3
    have h8 : rawEndVal (some 8) none = some 8 := by simp [rawEndVal, truthyQ]
    simp only [effectiveEnd, h8]
    rw [max_eq_right (by norm_num : (0 : ℚ) ≤ 8 - 5)]
    norm_num

/-- C2 witness: the theorem applied at `trimStart = 5`. -/
theorem c2_time_window_rebase_witness :
    effectiveStart 5 (some 3) none = 0 ∧ effectiveEnd 5 (some 8) none = some 3 := by
  obtain ⟨-, -, -, h4, h5, -, -⟩ := c2_time_window_rebase 5 (by norm_num)
  exact ⟨h4, h5⟩

/-- C6: the transcode run is a success iff the child exits zero and the
output exists afterwards; a non-zero exit produces the error message carrying
the exit code and the full stderr text; a zero exit with missing output
produces a distinct error message. -/
theorem c6_transcode_classification :
    (∀ (rc : ℤ) (st : String) (ex : Bool),
        classifyTranscode rc st ex = Except.ok true ↔ rc = 0 ∧ ex = true) ∧
    (∀ (rc : ℤ) (st : String) (ex : Bool), rc ≠ 0 →
        classifyTranscode rc st ex = Except.error (transcodeFailureMsg rc st)) ∧
    (∀ st : String, classifyTranscode 0 st false = Except.error outputMissingMsg) ∧
    (∀ (rc : ℤ) (st : String), transcodeFailureMsg rc st ≠ outputMissingMsg) := by
  refine ⟨?_, ?_, ?_, ?_⟩
  · intro rc st ex
    by_cases h : rc = 0 <;> cases ex <;> simp [classifyTranscode, h]
  · intro rc st ex h
    simp [classifyTranscode, h]
  · intro st
    simp [classifyTranscode]
  · intro rc st h
    have hd := congrArg String.data h
    simp only [transcodeFailureMsg, outputMissingMsg, String.data_append,
      List.append_assoc] at hd
    have h2 := congrArg (List.take ("FFmpeg failed with exit code ".data.length)) hd
    rw [List.take_left] at h2
    exact absurd h2 (by decide)

theorem resolvedPath_empty (pathExists : String → Bool) (l : LogoOverlay) :
    resolvedPath emptyLogoFiles pathExists l = none := rfl

theorem logoSegs_empty (trimStart : ℚ) (videoWidth : ℤ) (pathExists : String → Bool) :
    ∀ (logos : List LogoOverlay) (declIdx logoIdx : ℕ) (cur : String),
      logoSegs trimStart videoWidth emptyLogoFiles pathExists logos declIdx logoIdx cur = [] := by
  intro logos
  induction logos with
  | nil => intro declIdx logoIdx cur; simp [logoSegs]
  | cons l rest ih =>
      intro declIdx logoIdx cur
      simp [logoSegs, resolvedPath_empty, ih]

theorem logoChainLabel_empty (pathExists : String → Bool) :
    ∀ (logos : List LogoOverlay) (declIdx : ℕ) (cur : String),
      logoChainLabel emptyLogoFiles pathExists logos declIdx cur = cur := by
  intro logos
  induction logos with
  | nil => intro declIdx cur; simp [logoChainLabel]
  | cons l rest ih =>
      intro declIdx cur
      simp [logoChainLabel, resolvedPath_empty, ih]

theorem logoInputs_empty (pathExists : String → Bool) :
    ∀ logos : List LogoOverlay, logoInputs emptyLogoFiles pathExists logos = [] := by
  intro logos
  induction logos with
  | nil => simp [logoInputs]
  | cons l rest ih => simp [logoInputs, resolvedPath_empty, ih]

theorem textSegs_countP_scale (trimStart : ℚ) (videoWidth : ℤ) :
    ∀ (texts : List TextOverlay) (declIdx : ℕ) (cur : String),
      (textSegs trimStart videoWidth texts declIdx cur).countP isScaleSeg = 0 := by
  intro texts
  induction texts with
  | nil => intro declIdx cur; simp [textSegs]
  | cons t rest ih => intro declIdx cur; simp [textSegs, List.countP_cons, isScaleSeg, ih]

theorem textSegs_countP_overlay (trimStart : ℚ) (videoWidth : ℤ) :
    ∀ (texts : List TextOverlay) (declIdx : ℕ) (cur : String),
      (textSegs trimStart videoWidth texts declIdx cur).countP isOverlaySeg = 0 := by
  intro texts
  induction texts with
  | nil => intro declIdx cur; simp [textSegs]
  | cons t rest ih => intro declIdx cur; simp [textSegs, List.countP_cons, isOverlaySeg, ih]

theorem textSegs_countP_fmt (trimStart : ℚ) (videoWidth : ℤ) :
    ∀ (texts : List TextOverlay) (declIdx : ℕ) (cur : String),
      (textSegs trimStart videoWidth texts declIdx cur).countP isFmtSeg = 0 := by
  intro texts
  induction texts with
  | nil => intro declIdx cur; simp [textSegs]
  | cons t rest ih => intro declIdx cur; simp [textSegs, List.countP_cons, isFmtSeg, ih]

theorem textSegs_filterMap_scaleIdx (trimStart : ℚ) (videoWidth : ℤ) :
    ∀ (texts : List TextOverlay) (declIdx : ℕ) (cur : String),
      (textSegs trimStart videoWidth texts declIdx cur).filterMap scaleInputIdx = [] := by
  intro texts
  induction texts with
  | nil => intro declIdx cur; simp [textSegs]
  | cons t rest ih => intro declIdx cur; simp [textSegs, scaleInputIdx, ih]

theorem logoSegs_countP_scale (trimStart : ℚ) (videoWidth : ℤ)
    (logoFiles : String → Option String) (pathExists : String → Bool) :
    ∀ (logos : List LogoOverlay) (declIdx logoIdx : ℕ) (cur : String),
      (logoSegs trimStart videoWidth logoFiles pathExists logos declIdx logoIdx cur).countP isScaleSeg
        = logos.countP fun l => (resolvedPath logoFiles pathExists l).isSome := by
  intro logos
  induction logos with
  | nil => intro declIdx logoIdx cur; simp [logoSegs]
  | cons l rest ih =>
      intro declIdx logoIdx cur
      cases h : resolvedPath logoFiles pathExists l with
      | none => simp [logoSegs, h, List.countP_cons, ih]
      | some p => simp [logoSegs, h, List.countP_cons, isScaleSeg, isOverlaySeg, ih]

theorem logoSegs_countP_overlay (trimStart : ℚ) (videoWidth : ℤ)
    (logoFiles : String → Option String) (pathExists : String → Bool) :
    ∀ (logos : List LogoOverlay) (declIdx logoIdx : ℕ) (cur : String),
      (logoSegs trimStart videoWidth logoFiles pathExists logos declIdx logoIdx cur).countP isOverlaySeg
        = logos.countP fun l => (resolvedPath logoFiles pathExists l).isSome := by
  intro logos
  induction logos with
  | nil => intro declIdx logoIdx cur; simp [logoSegs]
  | cons l rest ih =>
      intro declIdx logoIdx cur
      cases h : resolvedPath logoFiles pathExists l with
      | none => simp [logoSegs, h, List.countP_cons, ih]
      | some p => simp [logoSegs, h, List.countP_cons, isScaleSeg, isOverlaySeg, ih]

theorem logoSegs_countP_fmt (trimStart : ℚ) (videoWidth : ℤ)
    (logoFiles : String → Option String) (pathExists : String → Bool) :
    ∀ (logos : List LogoOverlay) (declIdx logoIdx : ℕ) (cur : String),
      (logoSegs trimStart videoWidth logoFiles pathExists logos declIdx logoIdx cur).countP isFmtSeg
        = 0 := by
  intro logos
  induction logos with
  | nil => intro declIdx logoIdx cur; simp [logoSegs]
  | cons l rest ih =>
      intro declIdx logoIdx cur
      cases h : resolvedPath logoFiles pathExists l with
      | none => simp [logoSegs, h, ih]
      | some p => simp [logoSegs, h, List.countP_cons, isFmtSeg, ih]

theorem logoSegs_scaleIdxs (trimStart : ℚ) (videoWidth : ℤ)
    (logoFiles : String → Option String) (pathExists : String → Bool) :
    ∀ (logos : List LogoOverlay) (declIdx logoIdx : ℕ) (cur : String),
      (logoSegs trimStart videoWidth logoFiles pathExists logos declIdx logoIdx cur).filterMap scaleInputIdx
        = List.range' logoIdx (logos.countP fun l => (resolvedPath logoFiles pathExists l).isSome) := by
  intro logos
  induction logos with
  | nil => intro declIdx logoIdx cur; simp [logoSegs]
  | cons l rest ih =>
      intro declIdx logoIdx cur
      cases h : resolvedPath logoFiles pathExists l with
      | none => simp [logoSegs, h, List.countP_cons, ih]
      | some p =>
          simp [logoSegs, h, List.countP_cons, scaleInputIdx, ih, List.range'_succ]

theorem logoInputs_eq_resolved (logoFiles : String → Option String) (pathExists : String → Bool) :
    ∀ logos : List LogoOverlay,
      logoInputs logoFiles pathExists logos
        = (logos.filterMap (resolvedPath logoFiles pathExists)).flatMap fun p => ["-i", p] := by
  intro logos
  induction logos with
  | nil => simp [logoInputs]
  | cons l rest ih =>
      cases h : resolvedPath logoFiles pathExists l with
      | none => simp [logoInputs, h, ih]
      | some p => simp [logoInputs, h, ih]

theorem filterMap_length_eq_countP_isSome {α β : Type} (f : α → Option β) :
    ∀ l : List α, (l.filterMap f).length = l.countP fun a => (f a).isSome := by
  intro l
  induction l with
  | nil => simp
  | cons a rest ih =>
      cases h : f a with
      | none => simp [List.filterMap_cons, h, List.countP_cons, ih]
      | some b => simp [List.filterMap_cons, h, List.countP_cons, ih]

/-- C6 witness at concrete inputs. -/
theorem c6_transcode_classification_witness :
    classifyTranscode 1 "boom" true = Except.error (transcodeFailureMsg 1 "boom") ∧
    classifyTranscode 0 "warn" true = Except.ok true ∧
    transcodeFailureMsg 1 "boom" ≠ outputMissingMsg := by
  obtain ⟨h1, h2, h3, h4⟩ := c6_transcode_classification
  exact ⟨h2 1 "boom" true (by decide), (h1 0 "warn" true).mpr ⟨rfl, rfl⟩, h4 1 "boom"⟩

/-- C10: the primary `/video/process` endpoint passes the empty logo-file
map, so whatever `logoOverlays` contains, the compiled filter equals the one
compiled with no logo overlays at all: no scale stage, no overlay-composite
stage, and an empty auxiliary-input list. -/
theorem c10_primary_endpoint_ignores_logos (trimStart : ℚ) (texts : List TextOverlay)
    (logos : List LogoOverlay) (pathExists : String → Bool) (videoWidth videoHeight : ℤ)
    (brightness contrast saturation : ℚ) :
    build_overlay_filter trimStart texts logos emptyLogoFiles pathExists videoWidth videoHeight
        brightness contrast saturation
      = build_overlay_filter trimStart texts [] emptyLogoFiles pathExists videoWidth videoHeight
        brightness contrast saturation ∧
    (build_overlay_filter trimStart texts logos emptyLogoFiles pathExists videoWidth videoHeight
        brightness contrast saturation).2 = [] ∧
    (buildSegs trimStart texts logos emptyLogoFiles pathExists videoWidth
        brightness contrast saturation).countP isScaleSeg = 0 ∧
    (buildSegs trimStart texts logos emptyLogoFiles pathExists videoWidth
        brightness contrast saturation).countP isOverlaySeg = 0 := by
  have hsegs : buildSegs trimStart texts logos emptyLogoFiles pathExists videoWidth
      brightness contrast saturation
        = buildSegs trimStart texts [] emptyLogoFiles pathExists videoWidth
          brightness contrast saturation := by
    simp [buildSegs, logoSegs_empty, logoChainLabel_empty, logoSegs, logoChainLabel]
  refine ⟨?_, ?_, ?_, ?_⟩
  · simp [build_overlay_filter, hsegs, logoInputs_empty, logoInputs]
  · simp [build_overlay_filter, logoInputs_empty]
  · rw [hsegs]
    simp [buildSegs, logoSegs, List.countP_cons, isScaleSeg, textSegs_countP_scale,
      List.countP_append, isFmtSeg]
  · rw [hsegs]
    simp [buildSegs, logoSegs, List.countP_cons, isOverlaySeg, textSegs_countP_overlay,
      List.countP_append, isFmtSeg]

/-- C4: an image overlay with no (existing) resolved path contributes no
auxiliary input and no stage — removing it from the overlay list changes
neither the input list nor the number of scale / overlay-composite stages —
compilation still ends in the single terminal `outv` format stage, and the
scale stages consume auxiliary-input streams `1, 2, …` in exactly the order
the resolved overlays' paths appear in the auxiliary-input list. -/
theorem c4_unresolved_logo_skipped (logoFiles : String → Option String)
    (pathExists : String → Bool) (pre post : List LogoOverlay) (u : LogoOverlay)
    (hu : resolvedPath logoFiles pathExists u = none) (trimStart : ℚ)
    (texts : List TextOverlay) (videoWidth : ℤ) (brightness contrast saturation : ℚ) :
    logoInputs logoFiles pathExists (pre ++ u :: post)
      = logoInputs logoFiles pathExists (pre ++ post) ∧
    (buildSegs trimStart texts (pre ++ u :: post) logoFiles pathExists videoWidth
        brightness contrast saturation).countP isScaleSeg
      = (buildSegs trimStart texts (pre ++ post) logoFiles pathExists videoWidth
        brightness contrast saturation).countP isScaleSeg ∧
    (buildSegs trimStart texts (pre ++ u :: post) logoFiles pathExists videoWidth
        brightness contrast saturation).countP isOverlaySeg
      = (buildSegs trimStart texts (pre ++ post) logoFiles pathExists videoWidth
        brightness contrast saturation).countP isOverlaySeg ∧
    (∀ logos : List LogoOverlay,
      (buildSegs trimStart texts logos logoFiles pathExists videoWidth
          brightness contrast saturation).getLast?
        = some (FilterSeg.fmt
            (textChainLabel texts 0 (logoChainLabel logoFiles pathExists logos 0 "base"))
            "outv") ∧
      (buildSegs trimStart texts logos logoFiles pathExists videoWidth
          brightness contrast saturation).countP isFmtSeg = 1 ∧
      (buildSegs trimStart texts logos logoFiles pathExists videoWidth
          brightness contrast saturation).filterMap scaleInputIdx
        = List.range' 1 (logos.countP fun l => (resolvedPath logoFiles pathExists l).isSome) ∧
      logoInputs logoFiles pathExists logos
        = (logos.filterMap (resolvedPath logoFiles pathExists)).flatMap (fun p => ["-i", p]) ∧
      (logos.filterMap (resolvedPath logoFiles pathExists)).length
        = logos.countP fun l => (resolvedPath logoFiles pathExists l).isSome) := by
  refine ⟨?_, ?_, ?_, ?_⟩
  · rw [logoInputs_eq_resolved, logoInputs_eq_resolved]
    simp [List.filterMap_append, List.filterMap_cons, hu]
  · simp [buildSegs, List.countP_cons, List.countP_append, isScaleSeg,
      logoSegs_countP_scale, textSegs_countP_scale, isFmtSeg, hu]
  · simp [buildSegs, List.countP_cons, List.countP_append, isOverlaySeg,
      logoSegs_countP_overlay, textSegs_countP_overlay, isFmtSeg, hu]
  · intro logos
    refine ⟨?_, ?_, ?_, logoInputs_eq_resolved _ _ _, filterMap_length_eq_countP_isSome _ _⟩
    · have hshape : buildSegs trimStart texts logos logoFiles pathExists videoWidth
          brightness contrast saturation
            = (FilterSeg.eq brightness contrast saturation ::
                (logoSegs trimStart videoWidth logoFiles pathExists logos 0 1 "base" ++
                 textSegs trimStart videoWidth texts 0
                   (logoChainLabel logoFiles pathExists logos 0 "base"))) ++
              [FilterSeg.fmt
                (textChainLabel texts 0 (logoChainLabel logoFiles pathExists logos 0 "base"))
                "outv"] := by
        simp [buildSegs]
      rw [hshape, List.getLast?_concat]
    · simp [buildSegs, List.countP_cons, List.countP_append, isFmtSeg,
        logoSegs_countP_fmt, textSegs_countP_fmt]
    · simp [buildSegs, List.filterMap_append, scaleInputIdx,
        logoSegs_scaleIdxs, textSegs_filterMap_scaleIdx]

/-- C4 witness: one resolved and one unresolved overlay at concrete inputs. -/
theorem c4_unresolved_logo_skipped_witness :
    logoInputs (fun n => if n = "good.png" then some "/tmp/good.png" else none)
        (fun p => p = "/tmp/good.png")
        [{ filename := "good.png" }, { filename := "missing.png" }]
      = logoInputs (fun n => if n = "good.png" then some "/tmp/good.png" else none)
        (fun p => p = "/tmp/good.png") [{ filename := "good.png" }] ∧
    logoInputs (fun n => if n = "good.png" then some "/tmp/good.png" else none)
        (fun p => p = "/tmp/good.png") [{ filename := "good.png" }]
      = ["-i", "/tmp/good.png"] := by
  have h := c4_unresolved_logo_skipped
    (fun n => if n = "good.png" then some "/tmp/good.png" else none)
    (fun p => p = "/tmp/good.png") [{ filename := "good.png" }] [] { filename := "missing.png" }
    (by simp [resolvedPath]) 0 [] 640 0 1 1
  refine ⟨h.1, ?_⟩
  rw [(h.2.2.2 [{ filename := "good.png" }]).2.2.2.1]
  simp [resolvedPath]

theorem logoSegs_map_posData (trimStart : ℚ) (logoFiles : String → Option String)
    (pathExists : String → Bool) (vw vw' : ℤ) :
    ∀ (logos : List LogoOverlay) (declIdx logoIdx : ℕ) (cur : String),
      (logoSegs trimStart vw logoFiles pathExists logos declIdx logoIdx cur).map posData
        = (logoSegs trimStart vw' logoFiles pathExists logos declIdx logoIdx cur).map posData := by
  intro logos
  induction logos with
  | nil => intro declIdx logoIdx cur; simp [logoSegs]
  | cons l rest ih =>
      intro declIdx logoIdx cur
      cases h : resolvedPath logoFiles pathExists l with
      | none => simp [logoSegs, h, ih]
      | some p => simp [logoSegs, h, posData, ih]

theorem textSegs_map_posData (trimStart : ℚ) (vw vw' : ℤ) :
    ∀ (texts : List TextOverlay) (declIdx : ℕ) (cur : String),
      (textSegs trimStart vw texts declIdx cur).map posData
        = (textSegs trimStart vw' texts declIdx cur).map posData := by
  intro texts
  induction texts with
  | nil => intro declIdx cur; simp [textSegs]
  | cons t rest ih => intro declIdx cur; simp [textSegs, posData, ih]

/-- C3: overlay dimensions and font size are scaled by
`round(declared * videoWidth / 640)` — with source width 1280, a declared
`fontSize = 24` becomes 48 and the default logo width 100 becomes 200 —
while the (x, y) percentage data carried by every overlay-composite and
drawtext stage is identical whatever the video width, and is rendered as a
percentage expression over the runtime frame dimensions
(`main_w`/`main_h`, `w`/`h`). -/
theorem c3_geometry_scaling (videoWidth videoWidth' : ℤ) :
    (∀ d : ℤ, pyRound ((d : ℚ) * scaleFactor videoWidth)
        = pyRound (((d * videoWidth : ℤ) : ℚ) / 640)) ∧
    scaledFontsize { text := "t", fontSize := some 24 } 1280 = 48 ∧
    scaledLogoWidth { filename := "logo.png" } 1280 = 200 ∧
    (∀ (trimStart : ℚ) (texts : List TextOverlay) (logos : List LogoOverlay)
        (logoFiles : String → Option String) (pathExists : String → Bool)
        (brightness contrast saturation : ℚ),
      (buildSegs trimStart texts logos logoFiles pathExists videoWidth
          brightness contrast saturation).map posData
        = (buildSegs trimStart texts logos logoFiles pathExists videoWidth'
          brightness contrast saturation).map posData) ∧
    (∀ (chain lbl en out : String) (x y : ℚ),
      renderSeg (FilterSeg.overlayComp chain lbl x y en out)
        = "[" ++ chain ++ "][" ++ lbl ++ "]overlay=(main_w*" ++ qstr x ++
            "/100):(main_h*" ++ qstr y ++ "/100):" ++ en ++ "[" ++ out ++ "]") ∧
    (∀ (chain payload color en out : String) (x y : ℚ) (fs : ℤ),
      renderSeg (FilterSeg.drawtext chain payload x y fs color en out)
        = "[" ++ chain ++ "]drawtext=text='" ++ payload ++ "':x=(w*" ++ qstr x ++
            "/100):y=(h*" ++ qstr y ++ "/100):fontsize=" ++ toString fs ++
            ":fontcolor=" ++ color ++ ":" ++ en ++ "[" ++ out ++ "]") := by
  refine ⟨?_, ?_, ?_, ?_, fun chain lbl en out x y => rfl,
    fun chain payload color en out x y fs => rfl⟩
  · intro d
    congr 1
    push_cast [scaleFactor]
    ring
  · norm_num [scaledFontsize, fontSizeVal, truthyZ, scaleFactor, pyRound, Int.fract]
  · norm_num [scaledLogoWidth, truthyZ, scaleFactor, pyRound, Int.fract]
  · intro trimStart texts logos logoFiles pathExists brightness contrast saturation
    simp [buildSegs, posData, logoSegs_map_posData trimStart logoFiles pathExists
      videoWidth videoWidth', textSegs_map_posData trimStart videoWidth videoWidth']

theorem escapeText_data (s : String) :
    (escapeText s).data = (s.data.map fun c => if c = '\'' then ['\\', '\''] else [c]).flatten :=
  rfl

theorem escapeChars_no_quote :
    ∀ l : List Char, '\'' ∉ l →
      (l.map fun c => if c = '\'' then ['\\', '\''] else [c]).flatten = l := by
  intro l
  induction l with
  | nil => intro _; rfl
  | cons a rest ih =>
      intro h
      simp only [List.mem_cons, not_or] at h
      have ha : a ≠ '\'' := fun hh => h.1 hh.symm
      simp [ha, ih h.2]

theorem escapeChars_mem :
    ∀ (l : List Char) (c : Char), c ∈ l → c ≠ '\'' →
      c ∈ (l.map fun c2 => if c2 = '\'' then ['\\', '\''] else [c2]).flatten := by
  intro l
  induction l with
  | nil => intro c hc _; cases hc
  | cons a rest ih =>
      intro c hc hne
      rw [List.map_cons, List.flatten_cons]
      rcases List.mem_cons.mp hc with h | h
      · subst h
        rw [if_neg hne]
        exact List.mem_append.mpr (Or.inl (List.mem_singleton.mpr rfl))
      · exact List.mem_append.mpr (Or.inr (ih c h hne))

/-- C5 counterexample: the overlay text `a;b` contains the stage delimiter
`;`, the code's escaping leaves it untouched (it only rewrites single
quotes), and the compiled `filter_complex` for that single text overlay
contains three `;` although its three stages are joined by only two
separators — the text altered the stage structure of the emitted string. -/
theorem c5_delimiter_escaping_counterexample :
    escapeText "a;b" = "a;b" ∧ ';' ∈ (escapeText "a;b").data ∧
    '\\' ∉ (escapeText "a;b").data ∧
    (renderFilter (buildSegs 0 [{ text := "a;b" }] [] emptyLogoFiles (fun _ => false) 640
        0 1 1)).data.count ';' = 3 ∧
    (buildSegs 0 [{ text := "a;b" }] [] emptyLogoFiles (fun _ => false) 640 0 1 1).length
      = 3 := by
  have hsegs : buildSegs 0 [{ text := "a;b" }] [] emptyLogoFiles (fun _ => false) 640 0 1 1
      = [FilterSeg.eq 0 1 1,
         FilterSeg.drawtext "base" (escapeText "a;b") 50 50 24 "white"
           "enable='between(t,0,INF)'" "outtext0",
         FilterSeg.fmt "outtext0" "outv"] := by
    have hfs : scaledFontsize { text := "a;b" } 640 = 24 := by
      norm_num [scaledFontsize, fontSizeVal, truthyZ, scaleFactor, pyRound, Int.fract]
    have hen : textEnable 0 { text := "a;b" } = "enable='between(t,0,INF)'" := by
      have h0 : effectiveStart 0 none none = 0 := by
        simp [effectiveStart, rawStartVal, truthyQ]
      simp [textEnable, enableClause, h0, effectiveEnd, rawEndVal, truthyQ, qstr]
      rfl
    simp [buildSegs, logoSegs, textSegs, logoChainLabel, textChainLabel, hfs, hen,
      colorVal, truthyS]
    rfl
  refine ⟨by decide, by decide, by decide, ?_, by rw [hsegs]; rfl⟩
  rw [hsegs]
  decide

/-- C5 (amended): only the single quote is escaped.  Each `'` in the overlay
text is replaced by `\'` in the drawtext payload; every other character —
including stage/argument delimiters such as `:` `;` `,` `[` `]` `\` — passes
through unescaped into the emitted drawtext stage, whose payload is exactly
`escapeText` of the overlay text. -/
theorem c5_delimiter_escaping_amended :
    (∀ s : String, '\'' ∉ s.data → escapeText s = s) ∧
    (∀ (s : String) (c : Char), c ∈ s.data → c ≠ '\'' → c ∈ (escapeText s).data) ∧
    escapeText "'" = "\\'" ∧
    (∀ (trimStart : ℚ) (videoWidth : ℤ) (t : TextOverlay) (declIdx : ℕ) (cur : String)
        (rest : List TextOverlay),
      textSegs trimStart videoWidth (t :: rest) declIdx cur
        = FilterSeg.drawtext cur (escapeText t.text) t.x t.y
            (scaledFontsize t videoWidth) (colorVal t.color t.fontcolor)
            (textEnable trimStart t) ("outtext" ++ toString declIdx) ::
          textSegs trimStart videoWidth rest (declIdx + 1)
            ("outtext" ++ toString declIdx)) := by
  refine ⟨?_, ?_, by decide, fun trimStart videoWidth t declIdx cur rest => rfl⟩
  · intro s h
    apply String.ext
    rw [escapeText_data]
    exact escapeChars_no_quote s.data h
  · intro s c hc hne
    rw [escapeText_data]
    exact escapeChars_mem s.data c hc hne

/-- C5 amended witness: a text containing `:` passes through unchanged. -/
theorem c5_delimiter_escaping_amended_witness :
    escapeText "a:b" = "a:b" ∧ ';' ∈ (escapeText "x;y").data := by
  obtain ⟨h1, h2, h3, h4⟩ := c5_delimiter_escaping_amended
  exact ⟨h1 "a:b" (by decide), h2 "x;y" ';' (by decide) (by decide)⟩

theorem outputPath_ne_stagedInputPath (fn fn' : String) (ts : ℤ) :
    outputPath fn ts ≠ stagedInputPath fn' := by
  intro h
  have hd := congrArg String.data h
  simp only [outputPath, outputFilename, stagedInputPath, String.data_append,
    List.append_assoc] at hd
  have h2 := congrArg List.head? hd
  rw [List.head?_append_of_ne_nil _ (by decide), List.head?_append_of_ne_nil _ (by decide)]
    at h2
  exact absurd h2 (by decide)

/-- C7 counterexample: after a failed transcode (non-zero exit) the endpoint
cleanup deletes only the staged input; the destination output path is not
among the deleted files, so a partial output file there is not discarded. -/
theorem c7_partial_output_counterexample :
    outputPath "a.mp4" 1 ∉
      (processVideoEndpointOutcome "a.mp4" 1 (Except.error (transcodeFailureMsg 1 "x"))
        false).deleted := by
  decide

/-- C7 (amended): no partial output is ever *returned* — on transcode failure
the endpoint responds with the error and the output path is never given to
the client, and on success it returns exactly the output path — but the
failure-path cleanup removes only the staged input file; the destination
output path is never among the deleted files, so a partial output file left
at the destination by a failed transcode is not discarded. -/
theorem c7_no_partial_output_amended (fn : String) (ts : ℤ) (e : String) (dbg : Bool) :
    (processVideoEndpointOutcome fn ts (Except.error e) dbg).response = Except.error e ∧
    (processVideoEndpointOutcome fn ts (Except.ok true) dbg).response
      = Except.ok (outputPath fn ts) ∧
    (processVideoEndpointOutcome fn ts (Except.error e) false).deleted
      = tempFilesToCleanup fn ∧
    outputPath fn ts ∉ (processVideoEndpointOutcome fn ts (Except.error e) dbg).deleted := by
  refine ⟨rfl, rfl, rfl, ?_⟩
  cases dbg with
  | true => simp [processVideoEndpointOutcome]
  | false =>
      simp only [processVideoEndpointOutcome, tempFilesToCleanup, Bool.false_eq_true,
        if_false, List.mem_singleton]
      exact outputPath_ne_stagedInputPath fn fn ts

/-- C7 amended witness at concrete inputs. -/
theorem c7_no_partial_output_amended_witness :
    (processVideoEndpointOutcome "a.mp4" 7 (Except.error "boom") false).response
      = Except.error "boom" ∧
    outputPath "a.mp4" 7 ∉
      (processVideoEndpointOutcome "a.mp4" 7 (Except.error "boom") false).deleted := by
  have h := c7_no_partial_output_amended "a.mp4" 7 "boom" false
  exact ⟨h.1, h.2.2.2⟩

/-- C9 counterexample: two requests with the same source file name and
distinct per-request timestamps (hence distinct rendered suffixes) collide on
the staged input path, which interpolates only the file name. -/
theorem c9_staged_path_collision_counterexample :
    requestStagedPath "a.mp4" 1 = requestStagedPath "a.mp4" 2 ∧
    toString (1 : ℤ) ≠ toString (2 : ℤ) ∧
    requestStagedPath "a.mp4" 1 = "uploads/proc_a.mp4" := by
  exact ⟨rfl, by decide, by decide⟩

/-- C9 (amended): the destination output path embeds the per-request
millisecond timestamp, so two requests with the same source file name and
distinct rendered suffixes get distinct output paths; the staged input path,
however, contains no per-request component — it is the same for any two
requests with the same source file name. -/
theorem c9_unique_suffix_amended (fn : String) (ts ts' : ℤ) :
    requestStagedPath fn ts = requestStagedPath fn ts' ∧
    (toString ts ≠ toString ts' → outputPath fn ts ≠ outputPath fn ts') := by
  refine ⟨rfl, ?_⟩
  intro hsuf h
  have hd := congrArg String.data h
  simp only [outputPath, outputFilename, String.data_append, List.append_assoc] at hd
  have h1 := List.append_cancel_left hd
  have h2 := List.append_cancel_left h1
  have h3 := List.append_cancel_left h2
  have h4 := List.append_cancel_left h3
  have h5 := List.append_cancel_right h4
  exact hsuf (String.ext h5)

/-- C9 amended witness at concrete inputs. -/
theorem c9_unique_suffix_amended_witness :
    requestStagedPath "a.mp4" 5 = requestStagedPath "a.mp4" 6 ∧
    outputPath "a.mp4" 5 ≠ outputPath "a.mp4" 6 := by
  have h := c9_unique_suffix_amended "a.mp4" 5 6
  exact ⟨h.1, h.2 (by decide)⟩

/-- C8 counterexample: a two-part frame-rate string with non-numeric parts
does not default to 30.0 — the uncaught `ValueError` from `float()`
propagates (and a zero denominator raises `ZeroDivisionError`). -/
theorem c8_fps_totality_counterexample :
    computeFps (some "a/b")
      = Except.error "ValueError: could not convert string to float" := by
  have hs : splitOnChar '/' "a/b".data = ["a".data, "b".data] := by decide
  have ha : pyFloatParts "a".data = none := by decide
  have hb : pyFloatParts "b".data = none := by decide
  simp [computeFps, hs, parsePyFloat, ha, hb]

/-- C8 (amended): fps is `N/D` when both parts parse as floats and `D ≠ 0`;
an absent frame-rate field (via the `"30/1"` default) and a string that does
not split into exactly two `/`-separated parts yield the default 30.0; but a
two-part string with an unparsable part raises `ValueError` and a parsable
zero denominator raises `ZeroDivisionError` — the derivation is not total. -/
theorem c8_fps_derivation_amended :
    computeFps none = Except.ok 30 ∧
    (∀ s : String, (splitOnChar '/' s.data).length ≠ 2 → computeFps (some s) = Except.ok 30) ∧
    (∀ (s : String) (n d : List Char) (x y : ℚ), splitOnChar '/' s.data = [n, d] →
        parsePyFloat n = some x → parsePyFloat d = some y → y ≠ 0 →
        computeFps (some s) = Except.ok (x / y)) ∧
    (∀ (s : String) (n d : List Char), splitOnChar '/' s.data = [n, d] →
        (parsePyFloat n = none ∨ parsePyFloat d = none) →
        computeFps (some s) = Except.error "ValueError: could not convert string to float") ∧
    (∀ (s : String) (n d : List Char) (x : ℚ), splitOnChar '/' s.data = [n, d] →
        parsePyFloat n = some x → parsePyFloat d = some 0 →
        computeFps (some s) = Except.error "ZeroDivisionError: float division by zero") := by
  refine ⟨?_, ?_, ?_, ?_, ?_⟩
  · have h30 : parsePyFloat "30".data = some 30 := by
      have hp : pyFloatParts "30".data = some (1, 30, 0, 0, 0) := by decide
      simp [parsePyFloat, hp]
    have h1 : parsePyFloat "1".data = some 1 := by
      have hp : pyFloatParts "1".data = some (1, 1, 0, 0, 0) := by decide
      simp [parsePyFloat, hp]
    have hs : splitOnChar '/' "30/1".data = ["30".data, "1".data] := by decide
    simp [computeFps, hs, h30, h1]
  · intro s h
    simp only [computeFps, Option.getD]
    split
    · rename_i heq
      rw [heq] at h
      simp at h
    · rfl
  · intro s n d x y hs hn hd hy
    simp [computeFps, hs, hn, hd, hy]
  · intro s n d hs hnd
    rcases hnd with hn | hd
    · cases hpd : parsePyFloat d <;> simp [computeFps, hs, hn, hpd]
    · cases hpn : parsePyFloat n <;> simp [computeFps, hs, hpn, hd]
  · intro s n d x hs hn hd
    simp [computeFps, hs, hn, hd]

/-- C8 amended witness at concrete inputs. -/
theorem c8_fps_derivation_amended_witness :
    computeFps (some "24000/1001") = Except.ok (24000 / 1001 : ℚ) ∧
    computeFps (some "30") = Except.ok 30 := by
  obtain ⟨h1, h2, h3, h4, h5⟩ := c8_fps_derivation_amended
  refine ⟨h3 "24000/1001" "24000".data "1001".data 24000 1001 (by decide) ?_ ?_ (by norm_num),
    h2 "30" (by decide)⟩
  · have hp : pyFloatParts "24000".data = some (1, 24000, 0, 0, 0) := by decide
    simp [parsePyFloat, hp]
  · have hp : pyFloatParts "1001".data = some (1, 1001, 0, 0, 0) := by decide
    simp [parsePyFloat, hp]

end VideoProc
